import Mathlib

/-!
Verification of the cloudrun demo web services.

This file gives a shallow embedding of the request handlers of the Flask
apps in this repository (`app.py`, `app-without-inst.py`,
`local-deployment/app/app-without-instrumentation.py`, `app-demo/app.py`)
and proves properties of them.  Randomness (random.uniform, random.random,
random.randint), wall-clock timestamps and request bodies are passed in as
explicit parameters; `time.sleep` and `logger` calls are modelled as an
explicit event trace; the JSON payloads built by `jsonify` are modelled by
a small JSON value type.
-/

namespace CloudRun

/-- JSON values, as produced by `jsonify`. -/
inductive Json where
  | str : String → Json
  | num : ℚ → Json
  | obj : List (String × Json) → Json
  | arr : List Json → Json

/-- Observable side effects of a handler: a `logger` line or a `time.sleep`. -/
inductive Event where
  | log : String → Event
  | sleep : ℚ → Event
deriving DecidableEq

/-- A record of the in-memory `users` list (`app-without-inst.py` line 139,
`app-without-instrumentation.py` line 205). -/
structure User where
  id : Nat
  name : String
  email : String
  created_at : String
  status : String
deriving DecidableEq

/-- A record of the in-memory `products` seed list. -/
structure Product where
  id : Nat
  name : String
  price : ℚ
  stock : Int
deriving DecidableEq

/-- The seed `products` list of `app-without-inst.py` lines 24-29. -/
def initialProducts : List Product :=
  [⟨1, "Laptop", 99999/100, 10⟩,
   ⟨2, "Phone", 69999/100, 25⟩,
   ⟨3, "Tablet", 39999/100, 15⟩,
   ⟨4, "Headphones", 19999/100, 50⟩]

/-- A line item of an order (`app-without-inst.py` lines 223-227). -/
structure OrderItem where
  product_id : Nat
  name : String
  price : ℚ
deriving DecidableEq

/-- A record of the in-memory `orders` list (`app-without-inst.py` lines 230-238). -/
structure Order where
  id : Nat
  user_id : Nat
  user_name : String
  items : List OrderItem
  total_amount : ℚ
  status : String
  created_at : String
deriving DecidableEq

/-- `random.uniform(lo, hi)`: `lo + (hi-lo)*random.random()`, where
`r` stands for the sampled `random.random()` value in `[0,1]`. -/
def uniform (lo hi r : ℚ) : ℚ := lo + (hi - lo) * r

/-- `simulate_database_operation(operation_type, duration_range)` of
`app-without-inst.py` lines 37-43: log a start line, sample a duration
uniformly from the range, sleep for it, log a completion line and return
the sampled duration.  The result is the emitted event trace paired with
the returned duration. -/
def simulate_database_operation (operation_type : String) (lo hi r : ℚ) :
    List Event × ℚ :=
  let duration := uniform lo hi r
  ([Event.log ("Starting " ++ operation_type ++ " operation"),
    Event.sleep duration,
    Event.log ("Completed " ++ operation_type ++ " operation in "
      ++ toString duration ++ "s")],
   duration)

/-- Outcome of `create_user` in the in-memory apps. -/
inductive CreateUserResult where
  | badRequest : CreateUserResult
  | conflict : CreateUserResult
  | created : User → CreateUserResult
deriving DecidableEq

/-- HTTP status code attached to each `create_user` outcome. -/
def CreateUserResult.statusCode : CreateUserResult → Nat
  | .badRequest => 400
  | .conflict => 409
  | .created _ => 201

/-- `create_user()` of `app-without-inst.py` lines 118-165 and
`app-without-instrumentation.py` lines 177-247 (identical logic): reject
a body missing `name` or `email` with 400; reject an email already present
in the `users` list with 409; otherwise append a user with
`id = len(users) + 1` and return it with 201.  The request body is the
pair of the optional `name` and `email` fields (a missing or empty JSON
body is both fields absent). -/
def create_user (users : List User) (name? email? : Option String)
    (now : String) : CreateUserResult × List User :=
  match name?, email? with
  | some name, some email =>
    match users.find? (fun u => u.email == email) with
    | some _ => (.conflict, users)
    | none =>
      let u : User := ⟨users.length + 1, name, email, now, "active"⟩
      (.created u, users ++ [u])
  | _, _ => (.badRequest, users)

/-- `create_user()` of `app-demo/app.py` lines 73-93: reject a missing or
empty `name` or `email` with 400 (Python falsiness of `None` and `""`),
otherwise insert the row into the SQLite `users` table — with no duplicate
check — and return `"message": "User created successfully"` with the
default status 200.  The table is modelled as its list of (name, email)
rows. -/
def appdemo_create_user (rows : List (String × String))
    (name? email? : Option String) : Nat × List (String × String) :=
  let name := name?.getD ""
  let email := email?.getD ""
  if name = "" ∨ email = "" then (400, rows)
  else (200, rows ++ [(name, email)])

/-- `next((u for u in users if u['id'] == user_id), None)` of
`app-without-inst.py` line 196. -/
def findUser (users : List User) (uid : Nat) : Option User :=
  users.find? (fun u => u.id == uid)

/-- The product-processing loop of `create_order`
(`app-without-inst.py` lines 205-227): for each requested product id,
skip it when no product has that id or when the (first) product with that
id has non-positive stock, and otherwise emit a line item snapshotting
the product's name and price. -/
def orderItemsOf (products : List Product) (pids : List Nat) : List OrderItem :=
  pids.filterMap (fun pid =>
    match products.find? (fun p => p.id == pid) with
    | none => none
    | some p => if p.stock ≤ 0 then none else some ⟨pid, p.name, p.price⟩)

/-- Running total accumulated by the product loop. -/
def totalOf (items : List OrderItem) : ℚ := (items.map (·.price)).sum

/-- `product['stock'] -= 1` applied through
`next(p for p in products if p['id'] == item['product_id'])`: decrement
the stock of the first product whose id matches. -/
def decrementFirst : List Product → Nat → List Product
  | [], _ => []
  | p :: ps, pid =>
    if p.id == pid then { p with stock := p.stock - 1 } :: ps
    else p :: decrementFirst ps pid

/-- The inventory-update loop of `create_order`
(`app-without-inst.py` lines 259-261): one decrement per line item. -/
def updateInventory (products : List Product) (items : List OrderItem) :
    List Product :=
  items.foldl (fun ps it => decrementFirst ps it.product_id) products

/-- Full outcome of one `create_order` request: HTTP status, the order
returned in the 201 response (if any), the resulting `orders` and
`products` lists, and the sequence of `status` values the newly appended
order object held over the course of the request. -/
structure CreateOrderOutcome where
  status : Nat
  response : Option Order
  orders : List Order
  products : List Product
  newOrderHistory : List String
deriving DecidableEq

/-- `create_order()` of `app-without-inst.py` lines 181-269 and
`app-without-instrumentation.py` lines 264-390 (identical logic):
reject a body missing `user_id` or `product_ids` with 400; reject an
unknown user id with 404 leaving all state unchanged; otherwise build the
line items (skipping unknown and out-of-stock products), append the order
with status `pending`, run the simulated payment which mutates the status
once to `paid` or `payment_failed` according to the sampled
`payment_success`, decrement the stock of each line item's product, and
return the order with 201. -/
def create_order (users : List User) (orders : List Order)
    (products : List Product) (uid? : Option Nat) (pids? : Option (List Nat))
    (now : String) (payment_success : Bool) : CreateOrderOutcome :=
  match uid?, pids? with
  | some uid, some pids =>
    match findUser users uid with
    | none => ⟨404, none, orders, products, []⟩
    | some user =>
      let items := orderItemsOf products pids
      let finalStatus := if payment_success then "paid" else "payment_failed"
      let order : Order :=
        ⟨orders.length + 1, uid, user.name, items, totalOf items,
         finalStatus, now⟩
      ⟨201, some order, orders ++ [order], updateInventory products items,
       ["pending", finalStatus]⟩
  | _, _ => ⟨400, none, orders, products, []⟩

/-- `handle_exception` of `app.py` lines 880-888: the `@app.errorhandler(Exception)`
catch-all, returning a 500 JSON body with the exception class name under
`type` and its message under `message`. -/
def handle_exception (ty msg now : String) : Nat × List (String × Json) :=
  (500,
   [("error", .str "Application error"),
    ("type", .str ty),
    ("message", .str msg),
    ("timestamp", .str now)])

/-- `error_test()` of `app.py` lines 718-748, composed with the global
exception handler: `http_error` returns an explicit 500 with
`error_type = "http_error"`; `exception` raises a `ValueError`, which the
`@app.errorhandler(Exception)` hook converts to `handle_exception`'s 500
body; `db_error` selects from a nonexistent SQLite table, catches the
resulting error and returns a 500 with `error_type = "database_error"`;
anything else returns 400. -/
def error_test (ty : String) (now : String) : Nat × List (String × Json) :=
  if ty = "http_error" then
    (500,
     [("error", .str "This is a test HTTP error"),
      ("error_type", .str "http_error"),
      ("message", .str "Intentional 500 error for testing")])
  else if ty = "exception" then
    handle_exception "ValueError"
      "This is a test exception for Dynatrace monitoring" now
  else if ty = "db_error" then
    (500,
     [("error", .str "no such table: non_existent_table"),
      ("error_type", .str "database_error"),
      ("message", .str "Intentional database error for testing")])
  else
    (400,
     [("error", .str "Unknown error type"),
      ("valid_types", .arr [.str "http_error", .str "exception", .str "db_error"]),
      ("message", .str "Please specify a valid error type")])

/-- `health_check()` of `app.py` lines 546-554: explicit 200. -/
def health_check (now agentPath : String) : Nat × List (String × Json) :=
  (200,
   [("status", .str "healthy"),
    ("timestamp", .str now),
    ("dynatrace_agent_path", .str agentPath),
    ("service", .str "dynatrace-test-app")])

/-- `health_check()` of `app-without-instrumentation.py` lines 442-463
(and identically `app-without-inst.py` lines 301-318): `jsonify` default
status 200, with the current `app_metrics` dictionary passed through. -/
def health_check_local (now : String) (metrics : List (String × Json)) :
    Nat × List (String × Json) :=
  (200,
   [("status", .str "healthy"),
    ("timestamp", .str now),
    ("version", .str "1.0.0"),
    ("metrics", .obj metrics)])

/-- `health()` of `app-demo/app.py` lines 140-146. -/
def health_demo (now : String) : Nat × List (String × Json) :=
  (200,
   [("status", .str "healthy"),
    ("timestamp", .str now)])

/-- The accumulation loop of `cpu_intensive()` (`app.py` lines 585-587):
`result = 0; for i in range(iterations): result += i ** 2`. -/
def cpu_intensive_result (n : Nat) : Nat :=
  (List.range n).foldl (fun acc i => acc + i ^ 2) 0

/-- The JSON body returned by `cpu_intensive()` (`app.py` lines 597-603);
the measured wall-clock duration and `psutil.cpu_percent()` reading are
parameters. -/
def cpu_intensive (n : Nat) (duration cpuPercent : ℚ) :
    List (String × Json) :=
  [("result", .num (cpu_intensive_result n)),
   ("iterations", .num n),
   ("duration_seconds", .num duration),
   ("cpu_percent", .num cpuPercent),
   ("message", .str ("Completed " ++ toString n ++ " iterations"))]

/-- The shared mutable state of the in-memory apps. -/
structure AppState where
  users : List User
  orders : List Order
  products : List Product
deriving DecidableEq

/-- `async_task()` of `app.py` lines 786-807: pick a task id from the
sampled `random.randint(1000, 9999)` value, spawn a detached background
thread, and immediately return a JSON body.  The result is the response
body, the (unchanged) application state, the foreground event trace
emitted before the response is returned, and the event trace of the
spawned background thread. -/
def async_task (st : AppState) (d : Nat) (rnd : Nat) (now : String) :
    List (String × Json) × AppState × List Event × List Event :=
  let task_id := "task_" ++ toString rnd
  ([("message", .str "Async task started"),
    ("task_id", .str task_id),
    ("duration", .num d),
    ("status", .str "running"),
    ("started_at", .str now)],
   st,
   [],
   [Event.log ("Starting background task " ++ task_id
      ++ " (duration: " ++ toString d ++ "s)"),
    Event.sleep d,
    Event.log ("Background task " ++ task_id ++ " completed")])

/-- Program counter of one thread running the body of `create_user`,
reduced to its two accesses of the shared `users` list: reading
`len(users) + 1` into the new user dict, then `users.append(user)`.
`mid v` records the id value the thread computed from the read. -/
inductive TPC where
  | start : TPC
  | mid : Nat → TPC
  | done : TPC
deriving DecidableEq

/-- Shared state of the concurrent `create_user` model: the ids stored in
the `users` list, plus each thread's program counter. -/
structure ConcState where
  ids : List Nat
  pcs : List TPC
deriving DecidableEq

/-- One atomic step of thread `t`: a thread at `start` reads the list
length and computes its id (`'id': len(users) + 1`); a thread at `mid v`
appends its user (`users.append(user)`); a finished thread does
nothing. -/
def stepCreate (s : ConcState) (t : Nat) : ConcState :=
  match s.pcs[t]? with
  | some .start => { s with pcs := s.pcs.set t (.mid (s.ids.length + 1)) }
  | some (.mid v) => ⟨s.ids ++ [v], s.pcs.set t .done⟩
  | _ => s

/-- Run a schedule: the interleaving is the list of thread indices in the
order their atomic steps execute. -/
def runSchedule (s : ConcState) (sched : List Nat) : ConcState :=
  sched.foldl stepCreate s

/-- Initial state for `n` concurrent `create_user` requests against an
empty `users` list. -/
def initState (n : Nat) : ConcState :=
  ⟨[], List.replicate n .start⟩

/-- The non-interleaved schedule: each thread runs both of its steps
before the next thread starts. -/
def seqSchedule (n : Nat) : List Nat :=
  (List.range n).flatMap (fun t => [t, t])

/-- The fully racy schedule: every thread reads the list length before
any thread appends. -/
def racySchedule (n : Nat) : List Nat :=
  List.range n ++ List.range n

/-! ## Helper lemmas -/

theorem decrementFirst_map_id (ps : List Product) (pid : Nat) :
    (decrementFirst ps pid).map Product.id = ps.map Product.id := by
  induction ps with
  | nil => rfl
  | cons p ps ih =>
    by_cases h : p.id == pid
    · simp [decrementFirst, h]
    · simp [decrementFirst, h, ih]

theorem decrementFirst_map_sub (ps : List Product) (pid : Nat) (c : Nat → Int)
    (hnd : (ps.map Product.id).Nodup) :
    (decrementFirst ps pid).map (fun p => { p with stock := p.stock - c p.id }) =
      ps.map (fun p =>
        { p with stock := p.stock - (c p.id + (if p.id = pid then 1 else 0)) }) := by
  induction ps with
  | nil => rfl
  | cons p ps ih =>
    simp only [List.map_cons, List.nodup_cons, List.mem_map] at hnd
    by_cases h : p.id = pid
    · simp only [decrementFirst, h, beq_self_eq_true, if_true, List.map_cons]
      congr 1
      · congr 1
        ring
      · apply List.map_congr_left
        intro q hq
        have hne : q.id ≠ pid := by
          intro hcon
          exact hnd.1 ⟨q, hq, by rw [hcon, h]⟩
        simp [hne]
    · have hb : (p.id == pid) = false := by simpa using h
      simp only [decrementFirst, hb, Bool.false_eq_true, if_false, List.map_cons]
      congr 1
      · simp [h]
      · exact ih hnd.2

theorem updateInventory_eq (items : List OrderItem) :
    ∀ ps : List Product, (ps.map Product.id).Nodup →
    updateInventory ps items =
      ps.map (fun p =>
        { p with stock := p.stock -
            (items.countP (fun it => it.product_id == p.id) : Int) }) := by
  induction items with
  | nil =>
    intro ps _
    simp only [updateInventory, List.foldl_nil, List.countP_nil]
    conv_lhs => rw [← List.map_id ps]
    apply List.map_congr_left
    intro p _
    simp
  | cons it rest ih =>
    intro ps hnd
    have h1 : updateInventory ps (it :: rest) =
        updateInventory (decrementFirst ps it.product_id) rest := rfl
    rw [h1, ih _ (by rw [decrementFirst_map_id]; exact hnd)]
    rw [decrementFirst_map_sub ps it.product_id
      (fun i => ((rest.countP (fun it2 => it2.product_id == i) : Nat) : Int)) hnd]
    apply List.map_congr_left
    intro p _
    congr 1
    rw [List.countP_cons]
    by_cases h : it.product_id = p.id
    · simp [h]
    · have hb : (it.product_id == p.id) = false := by simpa using h
      have hb2 : ¬ (p.id = it.product_id) := fun hc => h hc.symm
      simp [hb, hb2]

theorem six_mul_cpu_intensive_result (n : Nat) :
    6 * cpu_intensive_result n = n * (n - 1) * (2 * n - 1) := by
  induction n with
  | zero => rfl
  | succ m ih =>
    have hstep : cpu_intensive_result (m + 1) = cpu_intensive_result m + m ^ 2 := by
      unfold cpu_intensive_result
      rw [List.range_succ, List.foldl_append]
      simp only [List.foldl_cons, List.foldl_nil]
    rw [hstep, Nat.mul_add, ih]
    cases m with
    | zero => decide
    | succ k =>
      have h1 : 2 * (k + 1) - 1 = 2 * k + 1 := by omega
      have h2 : 2 * (k + 1 + 1) - 1 = 2 * k + 3 := by omega
      simp only [Nat.add_sub_cancel, h1, h2]
      ring

theorem cpu_intensive_result_closed_form (n : Nat) :
    cpu_intensive_result n = n * (n - 1) * (2 * n - 1) / 6 := by
  have h := six_mul_cpu_intensive_result n
  omega

theorem create_order_none_uid (users : List User) (orders : List Order)
    (products : List Product) (pids? : Option (List Nat)) (now : String)
    (pay : Bool) :
    create_order users orders products none pids? now pay
      = ⟨400, none, orders, products, []⟩ := by
  cases pids? <;> rfl

theorem create_order_none_pids (users : List User) (orders : List Order)
    (products : List Product) (uid? : Option Nat) (now : String) (pay : Bool) :
    create_order users orders products uid? none now pay
      = ⟨400, none, orders, products, []⟩ := by
  cases uid? <;> rfl

theorem create_order_user_not_found (users : List User) (orders : List Order)
    (products : List Product) (uid : Nat) (pids : List Nat) (now : String)
    (pay : Bool) (hw : findUser users uid = none) :
    create_order users orders products (some uid) (some pids) now pay
      = ⟨404, none, orders, products, []⟩ := by
  simp [create_order, hw]

theorem create_order_user_found (users : List User) (orders : List Order)
    (products : List Product) (uid : Nat) (pids : List Nat) (now : String)
    (pay : Bool) (w : User) (hw : findUser users uid = some w) :
    create_order users orders products (some uid) (some pids) now pay =
      ⟨201,
       some ⟨orders.length + 1, uid, w.name, orderItemsOf products pids,
         totalOf (orderItemsOf products pids),
         if pay then "paid" else "payment_failed", now⟩,
       orders ++ [⟨orders.length + 1, uid, w.name, orderItemsOf products pids,
         totalOf (orderItemsOf products pids),
         if pay then "paid" else "payment_failed", now⟩],
       updateInventory products (orderItemsOf products pids),
       ["pending", if pay then "paid" else "payment_failed"]⟩ := by
  simp [create_order, hw]

theorem orderItemsOf_skips (products : List Product) (pids : List Nat) (pid : Nat)
    (hskip : ∀ p ∈ products, p.id = pid → p.stock ≤ 0) :
    ∀ it ∈ orderItemsOf products pids, it.product_id ≠ pid := by
  intro it hit heq
  unfold orderItemsOf at hit
  obtain ⟨q, hq, hfq⟩ := List.mem_filterMap.mp hit
  cases hfind : products.find? (fun p => p.id == q) with
  | none =>
    rw [hfind] at hfq
    exact absurd hfq (by simp)
  | some p =>
    rw [hfind] at hfq
    dsimp only at hfq
    by_cases hs : p.stock ≤ 0
    · rw [if_pos hs] at hfq
      exact absurd hfq (by simp)
    · rw [if_neg hs] at hfq
      have hpidq : it.product_id = q := by
        have := (Option.some.injEq _ _).mp hfq
        rw [← this]
      have hq_eq : q = pid := by rw [← hpidq, heq]
      have hp_mem := List.mem_of_find?_eq_some hfind
      have hp_id : p.id = q := by
        have := List.find?_some hfind
        simpa using this
      exact hs (hskip p hp_mem (by rw [hp_id, hq_eq]))

/-! ## Claim theorems -/

set_option maxRecDepth 100000

/-- C1 counterexample: invoking the error-simulation endpoint with
`type=exception` yields a 500 response whose JSON body has NO `error_type`
field (the catch-all handler emits a `type` field instead), so the claim
that all three modes carry an `error_type` field is false at this input. -/
theorem C1_counterexample :
    (error_test "exception" "2024-01-01T00:00:00").1 = 500 ∧
    ((error_test "exception" "2024-01-01T00:00:00").2.lookup "error_type")
      = none := ⟨rfl, rfl⟩

/-- C1 (amended): for every GET to /error-test, modes `http_error` and
`db_error` return status 500 with an `error_type` field distinguishing
them (`"http_error"` and `"database_error"`); mode `exception` also
returns status 500, but its body, produced by the global exception
handler, carries the exception class under a `type` field and has no
`error_type` field. -/
theorem C1_error_test_modes (now : String) :
    (error_test "http_error" now).1 = 500 ∧
    ((error_test "http_error" now).2.lookup "error_type")
      = some (Json.str "http_error") ∧
    (error_test "db_error" now).1 = 500 ∧
    ((error_test "db_error" now).2.lookup "error_type")
      = some (Json.str "database_error") ∧
    (error_test "exception" now).1 = 500 ∧
    ((error_test "exception" now).2.lookup "error_type") = none ∧
    ((error_test "exception" now).2.lookup "type")
      = some (Json.str "ValueError") :=
  ⟨rfl, rfl, rfl, rfl, rfl, rfl, rfl⟩

/-- C4 counterexample: an interleaving of 100 concurrent `create_user`
requests in which every thread reads `len(users)` before any thread
appends leaves the users list with 100 entries that ALL carry identifier
1 — the identifiers are not pairwise distinct, refuting the claim. -/
theorem C4_counterexample :
    (runSchedule (initState 100) (racySchedule 100)).ids
      = List.replicate 100 1 ∧
    (runSchedule (initState 100) (racySchedule 100)).ids.length = 100 ∧
    ¬ (runSchedule (initState 100) (racySchedule 100)).ids.Nodup := by
  have hids : (runSchedule (initState 100) (racySchedule 100)).ids
      = List.replicate 100 1 := by decide
  refine ⟨hids, by decide, ?_⟩
  rw [hids]
  simp [List.nodup_replicate]

/-- C4 (amended): when 100 users are created by 100 callers of the
user-creation endpoint, the users list afterwards contains exactly 100 new
entries, and their identifiers are pairwise distinct (1 through 100) when
the creations do not interleave; interleaved executions can instead assign
duplicate identifiers, since the id is read from `len(users) + 1` without
any mutual exclusion before the append. -/
theorem C4_sequential_creation_distinct_ids :
    (runSchedule (initState 100) (seqSchedule 100)).ids = List.range' 1 100 ∧
    (runSchedule (initState 100) (seqSchedule 100)).ids.length = 100 ∧
    (runSchedule (initState 100) (seqSchedule 100)).ids.Nodup := by
  refine ⟨by decide, by decide, by decide⟩

/-- C6: `simulate_database_operation`, given an operation label, a duration
range `lo ≤ hi` and a `random.random()` sample `r ∈ [0,1]`, always
succeeds, returns a sampled duration `d` with `lo ≤ d ≤ hi`, sleeps for
exactly that duration, and emits one log line before and one after the
pause. -/
theorem C6_simulate_database_operation_spec (op : String) (lo hi r : ℚ)
    (hlo : lo ≤ hi) (hr0 : 0 ≤ r) (hr1 : r ≤ 1) :
    lo ≤ (simulate_database_operation op lo hi r).2 ∧
    (simulate_database_operation op lo hi r).2 ≤ hi ∧
    (simulate_database_operation op lo hi r).1 =
      [Event.log ("Starting " ++ op ++ " operation"),
       Event.sleep ((simulate_database_operation op lo hi r).2),
       Event.log ("Completed " ++ op ++ " operation in "
         ++ toString ((simulate_database_operation op lo hi r).2) ++ "s")] := by
  refine ⟨?_, ?_, rfl⟩
  · show lo ≤ uniform lo hi r
    have h : 0 ≤ (hi - lo) * r := mul_nonneg (by linarith) hr0
    unfold uniform
    linarith
  · show uniform lo hi r ≤ hi
    have h : (hi - lo) * r ≤ (hi - lo) * 1 :=
      mul_le_mul_of_nonneg_left hr1 (by linarith)
    unfold uniform
    linarith

/-- C6 witness: the specification instantiated at the default range
(0.05, 0.2) with sample r = 1/2. -/
theorem C6_simulate_database_operation_spec_witness :
    ((1:ℚ)/20 ≤ 1/5 ∧ (0:ℚ) ≤ 1/2 ∧ (1:ℚ)/2 ≤ 1) ∧
    ((1:ℚ)/20 ≤ (simulate_database_operation "select_users" (1/20) (1/5) (1/2)).2 ∧
     (simulate_database_operation "select_users" (1/20) (1/5) (1/2)).2 ≤ 1/5 ∧
     (simulate_database_operation "select_users" (1/20) (1/5) (1/2)).1 =
       [Event.log ("Starting " ++ "select_users" ++ " operation"),
        Event.sleep ((simulate_database_operation "select_users" (1/20) (1/5) (1/2)).2),
        Event.log ("Completed " ++ "select_users" ++ " operation in "
          ++ toString ((simulate_database_operation "select_users" (1/20) (1/5) (1/2)).2) ++ "s")]) :=
  ⟨⟨by norm_num, by norm_num, by norm_num⟩,
   C6_simulate_database_operation_spec "select_users" (1/20) (1/5) (1/2)
     (by norm_num) (by norm_num) (by norm_num)⟩

/-- C7: every POST to /async-task with duration `d` returns immediately
(the foreground trace contains no sleep at all) with a body carrying the
generated task id, status `running` and the requested duration; the
spawned detached background thread sleeps `d` seconds and then logs
completion; and the application state is returned unchanged — no task
registry is written, so no route can expose any later status for the
task id. -/
theorem C7_async_task_fire_and_forget (st : AppState) (d rnd : Nat)
    (now : String) :
    (async_task st d rnd now).1.lookup "status" = some (Json.str "running") ∧
    (async_task st d rnd now).1.lookup "duration" = some (Json.num d) ∧
    (async_task st d rnd now).1.lookup "task_id"
      = some (Json.str ("task_" ++ toString rnd)) ∧
    (async_task st d rnd now).2.1 = st ∧
    (async_task st d rnd now).2.2.1 = [] ∧
    (async_task st d rnd now).2.2.2 =
      [Event.log ("Starting background task " ++ ("task_" ++ toString rnd)
         ++ " (duration: " ++ toString d ++ "s)"),
       Event.sleep d,
       Event.log ("Background task " ++ ("task_" ++ toString rnd)
         ++ " completed")] :=
  ⟨rfl, rfl, rfl, rfl, rfl, rfl⟩

/-- C8: every GET to a health endpoint — `health_check` of the Cloud Run
app, `health_check` of the local apps, and `health` of the demo app —
returns status 200 with a `status` field reporting `healthy` and a
`timestamp` field present. -/
theorem C8_health_endpoints (now agentPath : String)
    (metrics : List (String × Json)) :
    (health_check now agentPath).1 = 200 ∧
    ((health_check now agentPath).2.lookup "status")
      = some (Json.str "healthy") ∧
    ((health_check now agentPath).2.lookup "timestamp")
      = some (Json.str now) ∧
    (health_check_local now metrics).1 = 200 ∧
    ((health_check_local now metrics).2.lookup "status")
      = some (Json.str "healthy") ∧
    ((health_check_local now metrics).2.lookup "timestamp")
      = some (Json.str now) ∧
    (health_demo now).1 = 200 ∧
    ((health_demo now).2.lookup "status") = some (Json.str "healthy") ∧
    ((health_demo now).2.lookup "timestamp") = some (Json.str now) :=
  ⟨rfl, rfl, rfl, rfl, rfl, rfl, rfl, rfl, rfl⟩

/-- C9: for every GET to /cpu-intensive with `iterations = n`, the
`result` field of the response equals the sum of `i ** 2` for `i` from 0
to `n - 1`, which is `n * (n - 1) * (2 * n - 1) / 6` in exact integer
arithmetic, and the `iterations` field echoes `n`. -/
theorem C9_cpu_intensive_sum_of_squares (n : Nat) (duration cpuPercent : ℚ) :
    cpu_intensive_result n = n * (n - 1) * (2 * n - 1) / 6 ∧
    (cpu_intensive n duration cpuPercent).lookup "result"
      = some (Json.num (n * (n - 1) * (2 * n - 1) / 6 : Nat)) ∧
    (cpu_intensive n duration cpuPercent).lookup "iterations"
      = some (Json.num n) := by
  have h := cpu_intensive_result_closed_form n
  refine ⟨h, ?_, rfl⟩
  show some (Json.num (cpu_intensive_result n : Nat)) = _
  rw [h]

/-- C2 counterexample: the user-creation endpoint of `app-demo/app.py`
performs no duplicate-email check — posting a second user with an email
already in the table inserts the row anyway and answers 200, not 409. -/
theorem C2_counterexample :
    (appdemo_create_user [("Alice", "alice@example.com")]
      (some "Bob") (some "alice@example.com")).1 = 200 ∧
    (appdemo_create_user [("Alice", "alice@example.com")]
      (some "Bob") (some "alice@example.com")).2
      = [("Alice", "alice@example.com"), ("Bob", "alice@example.com")] := by
  exact ⟨rfl, rfl⟩

/-- C2 (amended): for every POST to the user-creation endpoint of the
in-memory apps (`app-without-inst.py`,
`app-without-instrumentation.py`): a body lacking a name or an email
field yields status 400 with no user added; an email equal to that of an
existing user yields status 409 with no user added; otherwise the new
user is appended and returned with status 201.  The `app-demo` variant
rejects a missing (or empty) name or email with 400 without inserting,
but makes no duplicate check: every complete request inserts the row —
duplicate email included — and returns status 200, not 201. -/
theorem C2_user_creation_rules (users : List User)
    (rows : List (String × String)) (now name email : String)
    (name? email? : Option String) :
    ((name? = none ∨ email? = none) →
      create_user users name? email? now = (.badRequest, users)) ∧
    ((∃ u ∈ users, u.email = email) →
      create_user users (some name) (some email) now = (.conflict, users)) ∧
    ((∀ u ∈ users, u.email ≠ email) →
      create_user users (some name) (some email) now =
        (.created ⟨users.length + 1, name, email, now, "active"⟩,
         users ++ [⟨users.length + 1, name, email, now, "active"⟩])) ∧
    CreateUserResult.badRequest.statusCode = 400 ∧
    CreateUserResult.conflict.statusCode = 409 ∧
    (∀ u : User, (CreateUserResult.created u).statusCode = 201) ∧
    (appdemo_create_user rows none email? = (400, rows)) ∧
    (appdemo_create_user rows name? none = (400, rows)) ∧
    (name ≠ "" → email ≠ "" →
      appdemo_create_user rows (some name) (some email)
        = (200, rows ++ [(name, email)])) := by
  refine ⟨?_, ?_, ?_, rfl, rfl, fun u => rfl, ?_, ?_, ?_⟩
  · rintro (rfl | rfl)
    · cases email? <;> rfl
    · cases name? <;> rfl
  · rintro ⟨u, hu, he⟩
    have hsome : (users.find? (fun u => u.email == email)).isSome :=
      List.find?_isSome.mpr ⟨u, hu, by simp [he]⟩
    obtain ⟨w, hw⟩ := Option.isSome_iff_exists.mp hsome
    simp [create_user, hw]
  · intro h
    have hnone : users.find? (fun u => u.email == email) = none :=
      List.find?_eq_none.mpr (fun u hu => by simp [h u hu])
    simp [create_user, hnone]
  · simp [appdemo_create_user]
  · simp [appdemo_create_user]
  · intro hn he
    simp [appdemo_create_user, hn, he]

/-- C2 witness: the amended rules instantiated on a one-user list — a
missing name gives 400, a duplicate email gives 409, a fresh email is
appended with id 2, and the demo variant inserts with 200. -/
theorem C2_user_creation_rules_witness :
    create_user [⟨1, "Alice", "alice@example.com", "t0", "active"⟩] none
        (some "alice@example.com") "t1"
      = (.badRequest, [⟨1, "Alice", "alice@example.com", "t0", "active"⟩]) ∧
    create_user [⟨1, "Alice", "alice@example.com", "t0", "active"⟩]
        (some "Bob") (some "alice@example.com") "t1"
      = (.conflict, [⟨1, "Alice", "alice@example.com", "t0", "active"⟩]) ∧
    create_user [⟨1, "Alice", "alice@example.com", "t0", "active"⟩]
        (some "Bob") (some "bob@example.com") "t1"
      = (.created ⟨2, "Bob", "bob@example.com", "t1", "active"⟩,
         [⟨1, "Alice", "alice@example.com", "t0", "active"⟩,
          ⟨2, "Bob", "bob@example.com", "t1", "active"⟩]) ∧
    appdemo_create_user [] (some "Bob") (some "bob@example.com")
      = (200, [("Bob", "bob@example.com")]) := by
  have h1 := C2_user_creation_rules
    [⟨1, "Alice", "alice@example.com", "t0", "active"⟩] [] "t1" "Bob"
    "alice@example.com" none (some "alice@example.com")
  have h2 := C2_user_creation_rules
    [⟨1, "Alice", "alice@example.com", "t0", "active"⟩] [] "t1" "Bob"
    "bob@example.com" none none
  refine ⟨h1.1 (Or.inl rfl), ?_, ?_, ?_⟩
  · exact h1.2.1 ⟨⟨1, "Alice", "alice@example.com", "t0", "active"⟩,
      by simp, rfl⟩
  · exact h2.2.2.1 (by decide)
  · exact h2.2.2.2.2.2.2.2.2 (by decide) (by decide)

/-- C3: for every POST to the order-creation endpoint with a well-formed
body, an unknown user id yields status 404 with the orders and products
lists unchanged; with a known user id the order is created and returned
with status 201, and every referenced product that does not exist or
whose stock is not positive is omitted from the order's line items. -/
theorem C3_create_order_rules (users : List User) (orders : List Order)
    (products : List Product) (uid : Nat) (pids : List Nat) (now : String)
    (pay : Bool) :
    ((∀ u ∈ users, u.id ≠ uid) →
      create_order users orders products (some uid) (some pids) now pay
        = ⟨404, none, orders, products, []⟩) ∧
    ((∃ u ∈ users, u.id = uid) →
      (create_order users orders products (some uid) (some pids) now pay).status
        = 201 ∧
      ∃ ord,
        (create_order users orders products (some uid) (some pids) now pay).response
          = some ord ∧
        (create_order users orders products (some uid) (some pids) now pay).orders
          = orders ++ [ord] ∧
        ∀ pid ∈ pids, (∀ p ∈ products, p.id = pid → p.stock ≤ 0) →
          ∀ it ∈ ord.items, it.product_id ≠ pid) := by
  constructor
  · intro h
    have hnone : findUser users uid = none :=
      List.find?_eq_none.mpr (fun u hu => by simp [h u hu])
    exact create_order_user_not_found users orders products uid pids now pay hnone
  · rintro ⟨u, hu, hid⟩
    have hsome : (findUser users uid).isSome :=
      List.find?_isSome.mpr ⟨u, hu, by simp [hid]⟩
    obtain ⟨w, hw⟩ := Option.isSome_iff_exists.mp hsome
    rw [create_order_user_found users orders products uid pids now pay w hw]
    refine ⟨rfl,
      ⟨orders.length + 1, uid, w.name, orderItemsOf products pids,
       totalOf (orderItemsOf products pids),
       if pay then "paid" else "payment_failed", now⟩, rfl, rfl, ?_⟩
    intro pid _ hskip it hit
    exact orderItemsOf_skips products pids pid hskip it hit

/-- C3 witness: with no users, ordering as user 1 is a 404 that changes
nothing; with user 1 present and a catalogue whose only product is out of
stock, ordering products 1 (stock 0) and 2 (nonexistent) succeeds with
201 and line items omitting both. -/
theorem C3_create_order_rules_witness :
    create_order [] [] initialProducts (some 1) (some [1]) "t" true
      = ⟨404, none, [], initialProducts, []⟩ ∧
    ((create_order [⟨1, "Alice", "alice@example.com", "t0", "active"⟩] []
        [⟨1, "Laptop", 999, 0⟩] (some 1) (some [1, 2]) "t" true).status
      = 201 ∧
     ∃ ord,
       (create_order [⟨1, "Alice", "alice@example.com", "t0", "active"⟩] []
         [⟨1, "Laptop", 999, 0⟩] (some 1) (some [1, 2]) "t" true).response
         = some ord ∧
       (create_order [⟨1, "Alice", "alice@example.com", "t0", "active"⟩] []
         [⟨1, "Laptop", 999, 0⟩] (some 1) (some [1, 2]) "t" true).orders
         = [] ++ [ord] ∧
       ∀ pid ∈ [1, 2],
         (∀ p ∈ [(⟨1, "Laptop", 999, 0⟩ : Product)], p.id = pid → p.stock ≤ 0) →
         ∀ it ∈ ord.items, it.product_id ≠ pid) := by
  constructor
  · exact (C3_create_order_rules [] [] initialProducts 1 [1] "t" true).1
      (by simp)
  · exact (C3_create_order_rules
      [⟨1, "Alice", "alice@example.com", "t0", "active"⟩] []
      [⟨1, "Laptop", 999, 0⟩] 1 [1, 2] "t" true).2
      ⟨⟨1, "Alice", "alice@example.com", "t0", "active"⟩, by simp, rfl⟩

/-- C5: every order appended by the order-creation handler is created
with status `pending` and has its status mutated exactly once by the
simulated payment step — its status history over the request is exactly
`["pending", final]` with final `paid` or `payment_failed` — and no order
is ever removed; hence if every order in the list was `paid` or
`payment_failed` before the request, the same holds of every order in the
list after any completed request. -/
theorem C5_order_status_lifecycle (users : List User) (orders : List Order)
    (products : List Product) (uid? : Option Nat) (pids? : Option (List Nat))
    (now : String) (pay : Bool)
    (hinv : ∀ o ∈ orders, o.status = "paid" ∨ o.status = "payment_failed") :
    (∀ o ∈ orders,
      o ∈ (create_order users orders products uid? pids? now pay).orders) ∧
    (∀ o ∈ (create_order users orders products uid? pids? now pay).orders,
      o.status = "paid" ∨ o.status = "payment_failed") ∧
    (∀ ord,
      (create_order users orders products uid? pids? now pay).response
        = some ord →
      (create_order users orders products uid? pids? now pay).newOrderHistory
        = ["pending", ord.status] ∧
      (ord.status = "paid" ∨ ord.status = "payment_failed") ∧
      (create_order users orders products uid? pids? now pay).orders
        = orders ++ [ord]) := by
  cases uid? with
  | none =>
    rw [create_order_none_uid]
    exact ⟨fun o ho => ho, hinv, fun ord h => by cases h⟩
  | some uid =>
    cases pids? with
    | none =>
      rw [create_order_none_pids]
      exact ⟨fun o ho => ho, hinv, fun ord h => by cases h⟩
    | some pids =>
      cases hw : findUser users uid with
      | none =>
        rw [create_order_user_not_found users orders products uid pids now pay hw]
        exact ⟨fun o ho => ho, hinv, fun ord h => by cases h⟩
      | some w =>
        rw [create_order_user_found users orders products uid pids now pay w hw]
        refine ⟨fun o ho => List.mem_append_left _ ho, ?_, ?_⟩
        · intro o ho
          rcases List.mem_append.mp ho with h1 | h2
          · exact hinv o h1
          · have ho2 := List.mem_singleton.mp h2
            rw [ho2]
            cases pay with
            | true => exact Or.inl rfl
            | false => exact Or.inr rfl
        · intro ord h
          have hord := (Option.some.injEq _ _).mp h
          refine ⟨by rw [← hord], ?_, by rw [← hord]⟩
          rw [← hord]
          cases pay with
          | true => exact Or.inl rfl
          | false => exact Or.inr rfl

/-- C5 witness: the lifecycle property instantiated on an initially empty
orders list (the invariant hypothesis holds vacuously) with a known user
and a failing payment. -/
theorem C5_order_status_lifecycle_witness :
    (∀ o ∈ ([] : List Order),
      o.status = "paid" ∨ o.status = "payment_failed") ∧
    ((∀ o ∈ ([] : List Order),
      o ∈ (create_order [⟨1, "Alice", "alice@example.com", "t0", "active"⟩]
        [] initialProducts (some 1) (some [1]) "t" false).orders) ∧
    (∀ o ∈ (create_order [⟨1, "Alice", "alice@example.com", "t0", "active"⟩]
        [] initialProducts (some 1) (some [1]) "t" false).orders,
      o.status = "paid" ∨ o.status = "payment_failed") ∧
    (∀ ord,
      (create_order [⟨1, "Alice", "alice@example.com", "t0", "active"⟩]
        [] initialProducts (some 1) (some [1]) "t" false).response = some ord →
      (create_order [⟨1, "Alice", "alice@example.com", "t0", "active"⟩]
        [] initialProducts (some 1) (some [1]) "t" false).newOrderHistory
        = ["pending", ord.status] ∧
      (ord.status = "paid" ∨ ord.status = "payment_failed") ∧
      (create_order [⟨1, "Alice", "alice@example.com", "t0", "active"⟩]
        [] initialProducts (some 1) (some [1]) "t" false).orders
        = [] ++ [ord])) :=
  ⟨fun o ho => absurd ho (List.not_mem_nil o),
   C5_order_status_lifecycle
     [⟨1, "Alice", "alice@example.com", "t0", "active"⟩] [] initialProducts
     (some 1) (some [1]) "t" false
     (fun o ho => absurd ho (List.not_mem_nil o))⟩

/-- C10: after a create_order request returns 201, every product's stock
has been decremented by exactly the number of line items of the created
order that reference it (zero for skipped or unreferenced products), with
every field other than stock left unchanged — and this holds for both
payment outcomes, since the inventory update is unconditional. -/
theorem C10_stock_decrement (users : List User) (orders : List Order)
    (products : List Product) (uid : Nat) (pids : List Nat) (now : String)
    (pay : Bool) (hnd : (products.map Product.id).Nodup) :
    ∀ ord,
      (create_order users orders products (some uid) (some pids) now pay).response
        = some ord →
      (create_order users orders products (some uid) (some pids) now pay).products
        = products.map (fun p =>
            { p with stock := p.stock -
                (ord.items.countP (fun it => it.product_id == p.id) : Int) }) := by
  intro ord hord
  cases hw : findUser users uid with
  | none =>
    rw [create_order_user_not_found users orders products uid pids now pay hw]
      at hord
    cases hord
  | some w =>
    rw [create_order_user_found users orders products uid pids now pay w hw]
      at hord ⊢
    have h := (Option.some.injEq _ _).mp hord
    rw [← h]
    exact updateInventory_eq (orderItemsOf products pids) products hnd

/-- C10 witness: ordering products [1, 2, 1] with a failing payment
against the seed catalogue decrements Laptop stock by 2 and Phone stock
by 1, leaving Tablet and Headphones — and every non-stock field —
unchanged. -/
theorem C10_stock_decrement_witness :
    (initialProducts.map Product.id).Nodup ∧
    (create_order [⟨1, "Alice", "alice@example.com", "t0", "active"⟩] []
        initialProducts (some 1) (some [1, 2, 1]) "t" false).products
      = initialProducts.map (fun p =>
          { p with stock := p.stock -
              (((orderItemsOf initialProducts [1, 2, 1]).countP
                 (fun it => it.product_id == p.id) : Nat) : Int) }) ∧
    ((orderItemsOf initialProducts [1, 2, 1]).countP
       (fun it => it.product_id == 1) : Int) = 2 ∧
    ((orderItemsOf initialProducts [1, 2, 1]).countP
       (fun it => it.product_id == 3) : Int) = 0 := by
  have hnd : (initialProducts.map Product.id).Nodup := by decide
  refine ⟨hnd, ?_, by rfl, by rfl⟩
  exact C10_stock_decrement
    [⟨1, "Alice", "alice@example.com", "t0", "active"⟩] [] initialProducts
    1 [1, 2, 1] "t" false hnd
    ⟨1, 1, "Alice", orderItemsOf initialProducts [1, 2, 1],
     totalOf (orderItemsOf initialProducts [1, 2, 1]), "payment_failed", "t"⟩
    rfl

end CloudRun
